import Mathlib

/-!
Shallow embedding of `Tools/scripts/generate_manifest.py` (ManifestGenerator).

Strings are modelled as lists of characters (`Str`), Python `None`-able
values as `Option`, the nested firmware lookup dictionary as an
association list keyed by the (vehicletype, platform, git_sha, format,
frame) tuple, and the projected per-firmware JSON dictionary as an ordered
association list of key/value pairs.  File-system access is modelled by
passing directory contents explicitly and by total functions in a
configuration record (`ctime` for `os.path.getctime`, `apj` for reading
an apj sidecar JSON).  Fallible operations return `Option` or `Except`;
messages written to stderr are modelled by an explicit `Warning` list.
-/

abbrev Str := List Char

/-- Python `str.split(sep)` for a single-character separator: keeps empty
pieces, `"".split(sep) = [""]`. -/
def splitOnChar (sep : Char) : Str → List Str
  | [] => [[]]
  | c :: rest =>
    let r := splitOnChar sep rest
    if c = sep then
      [] :: r
    else
      match r with
      | [] => [[c]]
      | h :: t => (c :: h) :: t

/-- Python `str.strip()` (whitespace from both ends). -/
def stripStr (l : Str) : Str :=
  ((l.dropWhile Char.isWhitespace).reverse.dropWhile Char.isWhitespace).reverse

/-- Python `str.upper()` (per-character, ASCII). -/
def upperStr (l : Str) : Str :=
  l.map Char.toUpper

/-- Python `name.startswith(".")`. -/
def isHidden (l : Str) : Bool :=
  l.take 1 = ['.']

/-- `"".join(file.split(".")[-1:])` - the final extension; for a name with
no dot this is the whole name. -/
def lastExt (file : Str) : Str :=
  (splitOnChar '.' file).getLastD []

/-- `os.path.join` for the simple relative-component case used here. -/
def pathJoin (a b : Str) : Str :=
  a ++ '/' :: b

/-- Messages the tool prints to stderr. -/
inductive Warning where
  | noGitVersion (path : Str)
  | badGitVersion (path : Str)
  | badFwVersionFile (path : Str)
  | malformedFwVersion (path : Str)
  | badApjPath (path : Str)
  | noBoardId (path : Str)
  | noPlatform (path : Str)
deriving DecidableEq

/-- One firmware record: the `Firmware` class's `atts` dictionary.
`__init__` stores `None` for the first eight keys; the "latest",
"timestamp" and "format" keys are absent until the first visit in
`add_firmware_data_from_dir` stores them, so they are `Option` too
(`none` = key absent or value `None`). -/
structure Firmware where
  date : Option Nat := none
  platform : Option Str := none
  vehicletype : Option Str := none
  filepath : Option Str := none
  git_sha : Option Str := none
  frame : Option Str := none
  release_type : Option Str := none
  firmware_version : Option Str := none
  latest : Option Nat := none
  timestamp : Option Nat := none
  format : Option Str := none
deriving DecidableEq

def Firmware.init : Firmware := {}

/-- Composite key of the nested lookup dictionary
`firmware_data[vehicletype][file_platform][git_sha][format][frame]`. -/
abbrev FKey := Str × Str × Str × Str × Str

/-- The nested lookup dictionary, flattened to an association list keyed by
the 5-component tuple (same lookup/creation semantics; new records are
appended, matching dict insertion order). -/
abbrev Table := List (FKey × Firmware)

def tableGet : Table → FKey → Option Firmware
  | [], _ => none
  | (k, f) :: rest, k2 => if k = k2 then some f else tableGet rest k2

def tableSet : Table → FKey → Firmware → Table
  | [], k, f => [(k, f)]
  | (k1, f1) :: rest, k, f =>
    if k1 = k then (k, f) :: rest else (k1, f1) :: tableSet rest k f

/-- Environment of a run: constructor arguments of `ManifestGenerator` plus
the file-system facts the code reads.  `ctime` models
`os.path.getctime`; `apj` models opening an apj file and `json.load`-ing
it (`none` = file does not exist, `some none` = JSON without a
`board_id` key, `some (some b)` = JSON with `board_id` b). -/
structure Cfg where
  basedir : Str
  baseurl : Str
  ctime : Str → Nat
  apj : Str → Option (Option Nat)

/-- One platform subdirectory of a release-channel directory, as the walk
sees it.  `gitVersion` is the content of `git-version.txt` when that file
exists; `firmwareVersion` is the content of `firmware-version.txt` when
that file exists and is readable (`none` = `open()` raised).  `files` is
the `os.listdir` listing of the directory in listing order. -/
structure PlatformDir where
  name : Str
  gitVersion : Option Str
  firmwareVersion : Option Str
  files : List Str

/-- `git_sha_from_git_version`: `re.search("commit (?P<sha>[0-9a-f]+)")`
over the file content; `none` models the raised-and-caught exception. -/
def isHexLower (c : Char) : Bool :=
  ('0' ≤ c && c ≤ '9') || ('a' ≤ c && c ≤ 'f')

/-- Attempt to match `commit (?P<sha>[0-9a-f]+)` anchored at the start of
`l`: the literal `"commit "` followed by a maximal nonempty run of hex
digits. -/
def commitShaAt (l : Str) : Option Str :=
  if List.isPrefixOf "commit ".data l then
    let sha := (l.drop 7).takeWhile isHexLower
    if sha = [] then none else some sha
  else none

def git_sha_from_git_version : Str → Option Str
  | [] => none
  | c :: rest =>
    match commitShaAt (c :: rest) with
    | some sha => some sha
    | none => git_sha_from_git_version rest

/-- Reading and parsing `firmware-version.txt` (lines 226-239): the content
is stripped and must split on "-" into exactly two parts
(`(version_numbers, release_type) = firmware_version.split("-")`); a
wrong shape is the `ValueError` branch ("malformed ..."), an unreadable or
missing file is the catch-all branch ("bad file ...").  Both degrade to
`None` and a stderr message; on success the whole stripped string is
kept. -/
def readFwVersion (content : Option Str) (path : Str) : Option Str × Option Warning :=
  match content with
  | none => (none, some (Warning.badFwVersionFile path))
  | some c =>
    let t := stripStr c
    if (splitOnChar '-' t).length = 2 then (some t, none)
    else (none, some (Warning.malformedFwVersion path))

/-- `platform_frame_regex = re.compile("(?P<board>PX4|navio|pxf)(-(?P<frame>.+))?")`
with `re.match` semantics: the board alternatives are tried at position 0
in order; the frame group needs a "-" followed by at least one character,
otherwise it matches empty. -/
def boardPrefixOf (s : Str) : Option Str :=
  if List.isPrefixOf "PX4".data s then some "PX4".data
  else if List.isPrefixOf "navio".data s then some "navio".data
  else if List.isPrefixOf "pxf".data s then some "pxf".data
  else none

/-- Lines 241-252: platform/frame inference from the platform subdirectory
name; on a regex match the board group is the platform and the frame
group (or the vehicle type when the optional group matched empty) the
frame; with no match the whole name is the platform and the vehicle type
the frame. -/
def platformFrameOf (platformdir vehicletype : Str) : Str × Str :=
  match boardPrefixOf platformdir with
  | some b =>
    let rest := platformdir.drop b.length
    if rest.take 1 = ['-'] ∧ 2 ≤ rest.length then (b, rest.drop 1)
    else (b, vehicletype)
  | none => (platformdir, vehicletype)

/-- `variant_firmware_regex = re.compile("[^-]+-(?P<variant>v\\d+)[.px4]")`
with `re.match` semantics.  `[^-]+` can only reach the first "-";
after it the pattern needs "v", then a greedy nonempty digit run
(backtracking until the following single character is in the class
`[.px4]` = one of '.', 'p', 'x', '4').  The variant group is "v"
followed by the digits kept. -/
def pickVariantDigits (r2 : Str) : Nat → Option Str
  | 0 => none
  | Nat.succ k =>
    match (r2.drop (k + 1)).head? with
    | some c =>
      if c = '.' ∨ c = 'p' ∨ c = 'x' ∨ c = '4' then some ('v' :: r2.take (k + 1))
      else pickVariantDigits r2 k
    | none => pickVariantDigits r2 k

def variantOf (file : Str) : Option Str :=
  let a := file.takeWhile (fun c => c ≠ '-')
  if a = [] then none
  else if a.length = file.length then none
  else
    match file.drop (a.length + 1) with
    | 'v' :: r2 => pickVariantDigits r2 (r2.takeWhile Char.isDigit).length
    | _ => none

/-- Lines 260-269: the platform key a file contributes to -
`"-".join([platform, variant])` on a variant-regex match, else the bare
platform. -/
def filePlatformOf (platform file : Str) : Str :=
  match variantOf file with
  | some v => platform ++ '-' :: v
  | none => platform

/-- Lines 291-308: the channel-precedence block.  Note the unconditional
reset `firmware["latest"] = 0` at line 294 runs before the branch on the
release type, so the guard `if (not firmware["latest"])` at line 306
always sees a falsy value. -/
def applyChannelPolicy (f0 : Firmware) (releasetype path : Str) : Firmware :=
  let f1 := { f0 with latest := some 0 }
  if releasetype = "dev".data then
    let f2 := if f1.filepath = none then { f1 with filepath := some path } else f1
    if f2.release_type = none then { f2 with release_type := some "dev".data } else f2
  else if releasetype = "latest".data then
    let f2 := { f1 with latest := some 1, filepath := some path }
    if f2.release_type = none then { f2 with release_type := some "dev".data } else f2
  else
    let latestTruthy : Bool :=
      match f1.latest with
      | some n => n ≠ 0
      | none => false
    let f2 := if latestTruthy then f1 else { f1 with filepath := some path }
    { f2 with release_type := some releasetype }

/-- Lines 310-316: the unconditional per-visit field refresh.  The
timestamp is `os.path.getctime(firmware["filepath"])`, taken from the
record's (possibly just-kept) filepath; after `applyChannelPolicy` that
field is always set, the `getD` default is never used. -/
def refreshFields (cfg : Cfg) (f : Firmware) (file_platform vehicletype git_sha frame fmt : Str)
    (fwv : Option Str) : Firmware :=
  { f with
    platform := some file_platform
    vehicletype := some vehicletype
    git_sha := some git_sha
    frame := some frame
    timestamp := some (cfg.ctime (f.filepath.getD []))
    format := some fmt
    firmware_version := fwv }

/-- One whole visit of a located record by one file of one channel
directory (lines 291-316): precedence block followed by the field
refresh. -/
def visitOnce (cfg : Cfg) (f : Firmware) (releasetype : Str)
    (file_platform vehicletype git_sha frame fmt : Str) (fwv : Option Str)
    (path : Str) : Firmware :=
  refreshFields cfg (applyChannelPolicy f releasetype path)
    file_platform vehicletype git_sha frame fmt fwv

/-- Lines 254-316: processing of one file of a platform directory -
skip the two descriptor files, the generated listing and hidden files;
derive the platform key and the format; locate or create the record for
the 5-tuple; visit it. -/
def processFile (cfg : Cfg) (vehicletype releasetype someDir git_sha : Str)
    (fwv : Option Str) (platform frame : Str) (tbl : Table) (file : Str) : Table :=
  if file = "git-version.txt".data ∨ file = "firmware-version.txt".data ∨
      file = "files.html".data then tbl
  else if isHidden file then tbl
  else
    let file_platform := filePlatformOf platform file
    let fmt := lastExt file
    let key : FKey := (vehicletype, file_platform, git_sha, fmt, frame)
    let f0 := (tableGet tbl key).getD Firmware.init
    let path := pathJoin someDir file
    tableSet tbl key
      (visitOnce cfg f0 releasetype file_platform vehicletype git_sha frame fmt fwv path)

/-- Lines 210-316: processing of one entry of a channel directory's
listing.  Hidden names are skipped; a missing `git-version.txt` or one
whose content lacks the commit pattern aborts the platform directory with
only a stderr message; otherwise `firmware-version.txt` is read leniently
and every file of the directory is processed in listing order. -/
def processPlatformDir (cfg : Cfg) (vehicletype releasetype channelPath : Str)
    (tbl : Table) (pd : PlatformDir) : Table × List Warning :=
  if isHidden pd.name then (tbl, [])
  else
    let someDir := pathJoin channelPath pd.name
    let gitVersionPath := pathJoin someDir "git-version.txt".data
    match pd.gitVersion with
    | none => (tbl, [Warning.noGitVersion gitVersionPath])
    | some content =>
      match git_sha_from_git_version content with
      | none => (tbl, [Warning.badGitVersion gitVersionPath])
      | some git_sha =>
        let fwVersionPath := pathJoin someDir "firmware-version.txt".data
        let (fwv, w) := readFwVersion pd.firmwareVersion fwVersionPath
        let (platform, frame) := platformFrameOf pd.name vehicletype
        let tbl2 := pd.files.foldl
          (fun t file => processFile cfg vehicletype releasetype someDir git_sha fwv platform frame t file)
          tbl
        (tbl2, w.toList)

/-- `add_firmware_data_from_dir`: fold `processPlatformDir` over the
channel directory's listing (each entry modelled as a `PlatformDir`;
non-directory entries, skipped by the source, are simply not listed). -/
def add_firmware_data_from_dir (cfg : Cfg) (vehicletype releasetype channelPath : Str)
    (pds : List PlatformDir) (tbl : Table) : Table × List Warning :=
  pds.foldl
    (fun acc pd =>
      let (t2, ws) := processPlatformDir cfg vehicletype releasetype channelPath acc.1 pd
      (t2, acc.2 ++ ws))
    (tbl, [])

/-- JSON-ish values stored in the projected per-firmware dictionary. -/
inductive JVal where
  | nullv
  | strv (s : Str)
  | natv (n : Nat)
  | listv (l : List Str)
deriving DecidableEq

/-- The projected per-firmware dictionary (`some_json`): an ordered
association list, mirroring a Python dict (assignment to a fresh key
appends, assignment to a present key replaces in place). -/
abbrev JDict := List (Str × JVal)

def dget : JDict → Str → Option JVal
  | [], _ => none
  | (k, v) :: rest, k2 => if k = k2 then some v else dget rest k2

def dset : JDict → Str → JVal → JDict
  | [], k, v => [(k, v)]
  | (k1, v1) :: rest, k, v =>
    if k1 = k then (k, v) :: rest else (k1, v1) :: dset rest k v

def dhas (d : JDict) (k : Str) : Bool :=
  (dget d k).isSome

def optStrVal : Option Str → JVal
  | none => JVal.nullv
  | some s => JVal.strv s

/-- `frame_map`: fixed translation table, unmapped values pass through
(including `None`, which is not in the dict). -/
def frameMapTable : List (Str × Str) :=
  [("quad".data, "QUADROTOR".data),
   ("hexa".data, "HEXAROTOR".data),
   ("y6".data, "ARDUPILOT_Y6".data),
   ("tri".data, "TRICOPTER".data),
   ("octa".data, "OCTOROTOR".data),
   ("octa-quad".data, "ARDUPILOT_OCTAQUAD".data),
   ("heli".data, "HELICOPTER".data),
   ("Plane".data, "FIXED_WING".data),
   ("AntennaTracker".data, "ANTENNA_TRACKER".data),
   ("Rover".data, "GROUND_ROVER".data),
   ("Sub".data, "SUBMARINE".data)]

def assocLookup : List (Str × Str) → Str → Option Str
  | [], _ => none
  | (k, v) :: rest, k2 => if k = k2 then some v else assocLookup rest k2

def frame_map (frame : Option Str) : Option Str :=
  match frame with
  | none => none
  | some fr =>
    match assocLookup frameMapTable fr with
    | some m => some m
    | none => some fr

/-- `releasetype_map`: "stable" becomes "OFFICIAL", everything else is
uppercased. -/
def releasetype_map (releasetype : Str) : Str :=
  if releasetype = "stable".data then "OFFICIAL".data else upperStr releasetype

/-- `re.sub("^" + re.escape(basedir), baseurl, filepath)`: replace the
base directory with the base URL when it is a literal prefix. -/
def urlify (cfg : Cfg) (filepath : Str) : Str :=
  if List.isPrefixOf cfg.basedir filepath then
    cfg.baseurl ++ filepath.drop cfg.basedir.length
  else filepath

/-- `parse_fw_version`: `version.split("-")` destructured into exactly two
names, then the first part `.split(".")` destructured into exactly three;
`none` models the uncaught `ValueError` of a failing destructuring. -/
def parse_fw_version (version : Str) : Option (Str × Str × Str × Str) :=
  match splitOnChar '-' version with
  | [version_numbers, _release_type] =>
    match splitOnChar '.' version_numbers with
    | [major, minor, patch] => some (major, minor, patch, version)
    | _ => none
  | _ => none

/-- Lines 400-425 of `walk_directory`: project one accumulated record to
its external dictionary.  `Except.error` models an uncaught exception
aborting the run: a `None` filepath or release-type (`re.sub` /
`.upper()` on `None`), an absent "latest" or "format" key (`KeyError`;
unreachable for visited records), and the strict `parse_fw_version`
failure on a truthy firmware-version string. -/
def projectFirmware (cfg : Cfg) (f : Firmware) : Except Str JDict :=
  match f.filepath with
  | none => Except.error "TypeError: expected string or bytes-like object".data
  | some filepath =>
    match f.release_type with
    | none => Except.error "AttributeError: NoneType has no attribute upper".data
    | some rt =>
      match f.latest with
      | none => Except.error "KeyError: latest".data
      | some latest =>
        match f.format with
        | none => Except.error "KeyError: format".data
        | some fmt =>
          let url := urlify cfg filepath
          let d : JDict :=
            [("mav-autopilot".data, JVal.strv "ARDUPILOTMEGA".data),
             ("platform".data, optStrVal f.platform),
             ("git-sha".data, optStrVal f.git_sha),
             ("url".data, JVal.strv url),
             ("mav-type".data, optStrVal (frame_map f.frame)),
             ("mav-firmware-version-type".data, JVal.strv (releasetype_map rt)),
             ("latest".data, JVal.natv latest),
             ("format".data, JVal.strv fmt)]
          match f.firmware_version with
          | none => Except.ok d
          | some v =>
            if v = [] then Except.ok d
            else
              match parse_fw_version v with
              | none => Except.error "ValueError: fw version split".data
              | some (major, minor, patch, _) =>
                Except.ok (d ++
                  [("mav-firmware-version".data,
                    JVal.strv (major ++ '.' :: minor ++ '.' :: patch)),
                   ("mav-firmware-version-major".data, JVal.strv major),
                   ("mav-firmware-version-minor".data, JVal.strv minor),
                   ("mav-firmware-version-patch".data, JVal.strv patch)])

/-- `add_USB_IDs_PX4` (lines 95-114): key the fixed table by the last
dash-delimited token of the URL; unrecognized suffixes change nothing. -/
def add_USB_IDs_PX4 (d : JDict) : JDict :=
  match dget d "url".data with
  | some (JVal.strv url) =>
    let suffix := (splitOnChar '-' url).getLastD []
    if suffix = "v1.px4".data then
      dset (dset (dset d "USBID".data (JVal.listv ["0x26AC/0x0010".data]))
        "board_id".data (JVal.natv 5))
        "bootloader_str".data (JVal.listv ["PX4 BL FMU v1.x".data])
    else if suffix = "v2.px4".data ∨ suffix = "v3.px4".data then
      dset (dset (dset d "USBID".data (JVal.listv ["0x26AC/0x0011".data]))
        "board_id".data (JVal.natv 9))
        "bootloader_str".data (JVal.listv ["PX4 BL FMU v2.x".data])
    else if suffix = "v4.px4".data then
      dset (dset (dset d "USBID".data (JVal.listv ["0x26AC/0x0012".data]))
        "board_id".data (JVal.natv 11))
        "bootloader_str".data (JVal.listv ["PX4 BL FMU v4.x".data])
    else if suffix = "v4pro.px4".data then
      dset (dset (dset d "USBID".data (JVal.listv ["0x26AC/0x0013".data]))
        "board_id".data (JVal.natv 13))
        "bootloader_str".data (JVal.listv ["PX4 BL FMU v4.x PRO".data])
    else d
  | _ => d

/-- The vendor-specific USB-id table of `add_USB_IDs_ChibiOS`. -/
def USBID_MAP : List (Str × List Str) :=
  [("CubeBlack".data, ["0x2DAE/0x1011".data]),
   ("CubeOrange".data, ["0x2DAE/0x1016".data]),
   ("CubePurple".data, ["0x2DAE/0x1005".data]),
   ("CubeYellow".data, ["0x2DAE/0x1002".data]),
   ("Pixhawk4".data, ["0x3162/0x0047".data]),
   ("PH4-mini".data, ["0x3162/0x0049".data]),
   ("Pixhawk6".data, ["0x3162/0x004B".data]),
   ("VRBrain-v51".data, ["0x27AC/0x1151".data]),
   ("VRBrain-v52".data, ["0x27AC/0x1152".data]),
   ("VRBrain-v54".data, ["0x27AC/0x1154".data]),
   ("VRCore-v10".data, ["0x27AC/0x1910".data]),
   ("VRUBrain-v51".data, ["0x27AC/0x1351".data])]

def usbidMapLookup : List (Str × List Str) → Str → Option (List Str)
  | [], _ => none
  | (k, v) :: rest, k2 => if k = k2 then some v else usbidMapLookup rest k2

/-- Specification-side description of the five special-case board-id
amendments (the spec: "five specific numeric board ids that each append
one extra legacy bootloader-compatibility USB id/string pair"): the extra
bootloader strings a board id should receive.  Compared against the
sequential conditionals of `add_USB_IDs_ChibiOS` by the C8 theorem. -/
def legacyBootloaderStrs (board_id : Nat) : List Str :=
  (if board_id = 50 then ["PX4 BL FMU v5.x".data] else []) ++
  (if board_id = 9 then ["PX4 BL FMU v2.x".data] else []) ++
  (if board_id = 11 then ["PX4 BL FMU v4.x".data] else []) ++
  (if board_id = 13 then ["PX4 BL FMU v4.x PRO".data] else []) ++
  (if board_id = 88 then ["MindPX BL FMU v2.x".data] else [])

/-- Specification-side description: the extra legacy USB ids a board id
should receive (see `legacyBootloaderStrs`). -/
def legacyUSBIDs (board_id : Nat) : List Str :=
  (if board_id = 50 then ["0x26AC/0x0032".data] else []) ++
  (if board_id = 9 then ["0x26AC/0x0011".data] else []) ++
  (if board_id = 11 then ["0x26AC/0x0012".data] else []) ++
  (if board_id = 13 then ["0x26AC/0x0013".data] else []) ++
  (if board_id = 88 then ["0x26AC/0x0030".data] else [])

/-- `add_USB_IDs_ChibiOS` (lines 116-182).  The apj sidecar is read at
`basedir/url[len(baseurl)+1:]`; a missing file, a JSON without a
board_id, or a dictionary without a "platform" key each produce one
stderr message and no change.  Otherwise board_id, a platform-derived
bootloader string plus the vendor table lookup (generic fallback
`0x0483/0x5740`), and the five board-id special cases are applied.  A
present "platform" key holding a non-string is unreachable for projected
records and left unchanged here (the source would raise). -/
def add_USB_IDs_ChibiOS (cfg : Cfg) (d : JDict) : JDict × List Warning :=
  match dget d "url".data with
  | some (JVal.strv url0) =>
    let url := url0.drop (cfg.baseurl.length + 1)
    let apj_path := pathJoin cfg.basedir url
    match cfg.apj apj_path with
    | none => (d, [Warning.badApjPath apj_path])
    | some apj_json =>
      match apj_json with
      | none => (d, [Warning.noBoardId apj_path])
      | some board_id =>
        if dhas d "platform".data then
          match dget d "platform".data with
          | some (JVal.strv platform) =>
            let usb0 :=
              match usbidMapLookup USBID_MAP platform with
              | some ids => ids
              | none => ["0x0483/0x5740".data]
            let bl0 := [platform ++ "-BL".data]
            let p1 :=
              if board_id = 50 then
                (bl0 ++ ["PX4 BL FMU v5.x".data], usb0 ++ ["0x26AC/0x0032".data])
              else (bl0, usb0)
            let p2 :=
              if board_id = 9 then
                (p1.1 ++ ["PX4 BL FMU v2.x".data], p1.2 ++ ["0x26AC/0x0011".data])
              else p1
            let p3 :=
              if board_id = 11 then
                (p2.1 ++ ["PX4 BL FMU v4.x".data], p2.2 ++ ["0x26AC/0x0012".data])
              else p2
            let p4 :=
              if board_id = 13 then
                (p3.1 ++ ["PX4 BL FMU v4.x PRO".data], p3.2 ++ ["0x26AC/0x0013".data])
              else p3
            let p5 :=
              if board_id = 88 then
                (p4.1 ++ ["MindPX BL FMU v2.x".data], p4.2 ++ ["0x26AC/0x0030".data])
              else p4
            let d1 := dset d "board_id".data (JVal.natv board_id)
            let d2 := dset d1 "bootloader_str".data (JVal.listv p5.1)
            let d3 := dset d2 "USBID".data (JVal.listv p5.2)
            (d3, [])
          | _ => (d, [])
        else (d, [Warning.noPlatform apj_path])
  | _ => (d, [])

/-- `add_USB_IDs`: dispatch on the record's format. -/
def add_USB_IDs (cfg : Cfg) (d : JDict) : JDict × List Warning :=
  match dget d "format".data with
  | some (JVal.strv fmt) =>
    if fmt = "px4".data then (add_USB_IDs_PX4 d, [])
    else if fmt = "apj".data then add_USB_IDs_ChibiOS cfg d
    else (d, [])
  | _ => (d, [])

/-- The projection loop of `walk_directory` (lines 399-430): project every
record in order, enrich it, collect entries and warnings; the first
uncaught exception aborts the whole run. -/
def projectAll (cfg : Cfg) : List Firmware → Except Str (List JDict × List Warning)
  | [] => Except.ok ([], [])
  | f :: rest =>
    match projectFirmware cfg f with
    | Except.error e => Except.error e
    | Except.ok d =>
      let (d2, ws) := add_USB_IDs cfg d
      match projectAll cfg rest with
      | Except.error e => Except.error e
      | Except.ok (ds, ws2) => Except.ok (d2 :: ds, ws ++ ws2)

/-- Flattening of the composite-key table (`xfirmwares_to_firmwares`):
leaf records in table order. -/
def xfirmwares_to_firmwares (tbl : Table) : List Firmware :=
  tbl.map (fun kv => kv.2)

/-! Helper lemmas about the embedded operations. -/

theorem applyChannelPolicy_dev (f : Firmware) (p : Str) :
    applyChannelPolicy f "dev".data p =
      { f with latest := some 0,
               filepath := some (f.filepath.getD p),
               release_type := some (f.release_type.getD "dev".data) } := by
  unfold applyChannelPolicy
  cases hf : f.filepath <;> cases hr : f.release_type <;> simp [hf, hr]

theorem applyChannelPolicy_latest (f : Firmware) (p : Str) :
    applyChannelPolicy f "latest".data p =
      { f with latest := some 1, filepath := some p,
               release_type := some (f.release_type.getD "dev".data) } := by
  unfold applyChannelPolicy
  cases hr : f.release_type <;> simp [hr]

theorem applyChannelPolicy_other (f : Firmware) (ch p : Str)
    (h1 : ch ≠ "dev".data) (h2 : ch ≠ "latest".data) :
    applyChannelPolicy f ch p =
      { f with latest := some 0, filepath := some p, release_type := some ch } := by
  unfold applyChannelPolicy
  simp [h1, h2]

theorem applyChannelPolicy_isSome (f : Firmware) (ch p : Str) :
    (applyChannelPolicy f ch p).filepath ≠ none ∧
    (applyChannelPolicy f ch p).release_type ≠ none ∧
    (applyChannelPolicy f ch p).latest ≠ none := by
  by_cases h1 : ch = "dev".data
  · subst h1
    rw [applyChannelPolicy_dev]
    simp
  · by_cases h2 : ch = "latest".data
    · subst h2
      rw [applyChannelPolicy_latest]
      simp
    · rw [applyChannelPolicy_other f ch p h1 h2]
      simp

theorem dget_dset_same (d : JDict) (k : Str) (v : JVal) :
    dget (dset d k v) k = some v := by
  induction d with
  | nil => simp [dget, dset]
  | cons h t ih =>
    by_cases hk : h.1 = k
    · simp [dget, dset, hk]
    · simp [dget, dset, hk, ih]

theorem dget_dset_ne (d : JDict) (k k2 : Str) (v : JVal) (h : k ≠ k2) :
    dget (dset d k v) k2 = dget d k2 := by
  induction d with
  | nil => simp [dget, dset, h]
  | cons hd t ih =>
    by_cases hk : hd.1 = k
    · simp [dget, dset, hk, h]
    · by_cases hk2 : hd.1 = k2
      · simp [dget, dset, hk, hk2, Ne.symm h]
      · simp [dget, dset, hk, hk2, ih]

/-! Concrete fixtures used by witnesses. -/

def testCfg : Cfg :=
  ⟨"/base".data, "http://fw".data, fun _ => 7,
   fun p => if p = "/base/Copter/stable/navio-quad/ArduCopter.apj".data then some (some 9)
            else none⟩

/-- C1: the claim states that once a record's latest flag has been set by a
"latest" visit, a later "stable" visit leaves latest=1 and keeps the
"latest" file's path.  False on the code: line 294 resets
`firmware["latest"]` to 0 at the start of every visit, before the guard at
line 306 reads it, so the "stable" visit overwrites the path and the final
record has latest=0 and the stable path. -/
theorem C1_counterexample :
    ¬ ((visitOnce testCfg
          (visitOnce testCfg Firmware.init "latest".data "navio".data "Copter".data
            "deadbeef".data "quad".data "apj".data none
            "/base/Copter/latest/navio/ArduCopter.apj".data)
          "stable".data "navio".data "Copter".data
          "deadbeef".data "quad".data "apj".data none
          "/base/Copter/stable/navio/ArduCopter.apj".data).latest = some 1 ∧
       (visitOnce testCfg
          (visitOnce testCfg Firmware.init "latest".data "navio".data "Copter".data
            "deadbeef".data "quad".data "apj".data none
            "/base/Copter/latest/navio/ArduCopter.apj".data)
          "stable".data "navio".data "Copter".data
          "deadbeef".data "quad".data "apj".data none
          "/base/Copter/stable/navio/ArduCopter.apj".data).filepath =
         some "/base/Copter/latest/navio/ArduCopter.apj".data) := by
  decide

/-- C1 (amended): for a tuple visited once via "latest" and subsequently
once via "stable", the final record has latest=0 (the per-visit reset at
line 294 clears the flag before the guard at line 306 can see it) and its
filepath is the "stable" visit's path; the release type is "stable". -/
theorem C1_latest_then_stable (cfg : Cfg) (f : Firmware)
    (fp vt sha fr fmt : Str) (fwv : Option Str) (pL pS : Str) :
    (visitOnce cfg (visitOnce cfg f "latest".data fp vt sha fr fmt fwv pL)
        "stable".data fp vt sha fr fmt fwv pS).latest = some 0 ∧
    (visitOnce cfg (visitOnce cfg f "latest".data fp vt sha fr fmt fwv pL)
        "stable".data fp vt sha fr fmt fwv pS).filepath = some pS ∧
    (visitOnce cfg (visitOnce cfg f "latest".data fp vt sha fr fmt fwv pL)
        "stable".data fp vt sha fr fmt fwv pS).release_type = some "stable".data := by
  refine ⟨?_, ?_, ?_⟩ <;>
    · simp only [visitOnce]
      rw [applyChannelPolicy_other _ ("stable".data) _ (by decide) (by decide)]
      simp [refreshFields]

/-- C2: the claim states a "dev" visit leaves an existing record's latest
flag unchanged.  False on the code: the reset at line 294 runs for every
release type, including "dev", so a dev visit after a "latest" visit
changes latest from 1 to 0. -/
theorem C2_counterexample :
    ¬ ((visitOnce testCfg
          (visitOnce testCfg Firmware.init "latest".data "navio".data "Copter".data
            "deadbeef".data "quad".data "apj".data none
            "/base/Copter/latest/navio/ArduCopter.apj".data)
          "dev".data "navio".data "Copter".data
          "deadbeef".data "quad".data "apj".data none
          "/base/Copter/dev/navio/ArduCopter.apj".data).latest =
        (visitOnce testCfg Firmware.init "latest".data "navio".data "Copter".data
          "deadbeef".data "quad".data "apj".data none
          "/base/Copter/latest/navio/ArduCopter.apj".data).latest) := by
  decide

/-- C2 (amended): a "dev" visit sets filepath and release-type only if
currently unset and never overwrites an existing path; platform, vehicle
type, commit hash, frame, timestamp, format and firmware-version are
refreshed unconditionally; but the visit does not leave the latest flag
unchanged - like every visit it unconditionally resets latest to 0. -/
theorem C2_dev_visit (cfg : Cfg) (f : Firmware)
    (fp vt sha fr fmt : Str) (fwv : Option Str) (p : Str) :
    visitOnce cfg f "dev".data fp vt sha fr fmt fwv p =
      { f with
        latest := some 0
        filepath := some (f.filepath.getD p)
        release_type := some (f.release_type.getD "dev".data)
        platform := some fp
        vehicletype := some vt
        git_sha := some sha
        frame := some fr
        timestamp := some (cfg.ctime (f.filepath.getD p))
        format := some fmt
        firmware_version := fwv } := by
  simp only [visitOnce]
  rw [applyChannelPolicy_dev]
  simp [refreshFields]

/-- C3: any named channel other than "dev" and "latest" sets the record's
release-type to the channel name unconditionally; in particular a tuple
visited via "stable" and then via "stable-1.2.3" ends with release-type
"stable-1.2.3" (last-processed wins). -/
theorem C3_release_type_last_wins (cfg : Cfg) (f g : Firmware) (ch : Str)
    (h1 : ch ≠ "dev".data) (h2 : ch ≠ "latest".data)
    (fp vt sha fr fmt : Str) (fwv : Option Str) (p pS pS123 : Str) :
    (visitOnce cfg f ch fp vt sha fr fmt fwv p).release_type = some ch ∧
    (visitOnce cfg (visitOnce cfg g "stable".data fp vt sha fr fmt fwv pS)
        "stable-1.2.3".data fp vt sha fr fmt fwv pS123).release_type =
      some "stable-1.2.3".data := by
  constructor
  · simp only [visitOnce]
    rw [applyChannelPolicy_other _ ch _ h1 h2]
    simp [refreshFields]
  · simp only [visitOnce]
    rw [applyChannelPolicy_other _ ("stable-1.2.3".data) _ (by decide) (by decide)]
    simp [refreshFields]

theorem C3_witness :
    (visitOnce testCfg Firmware.init "beta".data "navio".data "Copter".data
        "deadbeef".data "quad".data "apj".data none "/p".data).release_type =
      some "beta".data ∧
    (visitOnce testCfg
        (visitOnce testCfg Firmware.init "stable".data "navio".data "Copter".data
          "deadbeef".data "quad".data "apj".data none "/pS".data)
        "stable-1.2.3".data "navio".data "Copter".data
        "deadbeef".data "quad".data "apj".data none "/pS123".data).release_type =
      some "stable-1.2.3".data :=
  C3_release_type_last_wins testCfg Firmware.init Firmware.init "beta".data
    (by decide) (by decide) "navio".data "Copter".data "deadbeef".data "quad".data
    "apj".data none "/p".data "/pS".data "/pS123".data

/-- C4: a platform directory without `git-version.txt`, or whose
`git-version.txt` lacks the "commit <hex>" pattern, contributes nothing:
the lookup table is returned exactly as it was and exactly one stderr
message is produced (no partial record is created). -/
theorem C4_missing_git_version (cfg : Cfg) (vt rt chPath : Str) (tbl : Table)
    (pd : PlatformDir) (hname : isHidden pd.name = false)
    (hbad : pd.gitVersion = none ∨
      ∃ c, pd.gitVersion = some c ∧ git_sha_from_git_version c = none) :
    ∃ w : Warning,
      processPlatformDir cfg vt rt chPath tbl pd = (tbl, [w]) := by
  rcases hbad with h | ⟨c, hc, hsha⟩
  · exact ⟨Warning.noGitVersion (pathJoin (pathJoin chPath pd.name) "git-version.txt".data),
      by simp [processPlatformDir, hname, h]⟩
  · exact ⟨Warning.badGitVersion (pathJoin (pathJoin chPath pd.name) "git-version.txt".data),
      by simp [processPlatformDir, hname, hc, hsha]⟩

theorem C4_witness :
    (∃ w : Warning,
      processPlatformDir testCfg "Copter".data "stable".data "/base/Copter/stable".data []
        ⟨"navio".data, none, none, ["ArduCopter.apj".data]⟩ = ([], [w])) ∧
    (∃ w : Warning,
      processPlatformDir testCfg "Copter".data "stable".data "/base/Copter/stable".data []
        ⟨"navio".data, some "no sha in here".data, none, ["ArduCopter.apj".data]⟩ =
        ([], [w])) :=
  ⟨C4_missing_git_version testCfg "Copter".data "stable".data "/base/Copter/stable".data []
      ⟨"navio".data, none, none, ["ArduCopter.apj".data]⟩ (by decide) (Or.inl rfl),
   C4_missing_git_version testCfg "Copter".data "stable".data "/base/Copter/stable".data []
      ⟨"navio".data, some "no sha in here".data, none, ["ArduCopter.apj".data]⟩ (by decide)
      (Or.inr ⟨"no sha in here".data, rfl, by decide⟩)⟩

/-- C5: during projection, a present (non-empty) firmware-version string
must split on "-" into exactly two parts and its first part on "." into
exactly three components; a version string of any other shape makes
`parse_fw_version` fail, which aborts the entire projection with an
uncaught error (no manifest is produced), unlike the lenient
accumulator-stage parse. -/
theorem C5_strict_version_parse_fatal (cfg : Cfg) (fs : List Firmware)
    (f : Firmware) (v : Str) (hmem : f ∈ fs) (hv : f.firmware_version = some v)
    (hne : v ≠ []) (hbad : parse_fw_version v = none) :
    (¬ ∃ a b x y z : Str, splitOnChar '-' v = [a, b] ∧ splitOnChar '.' a = [x, y, z]) ∧
    ∃ e, projectAll cfg fs = Except.error e := by
  constructor
  · rintro ⟨a, b, x, y, z, h1, h2⟩
    simp [parse_fw_version, h1, h2] at hbad
  · have herr : ∃ e, projectFirmware cfg f = Except.error e := by
      rcases hfp : f.filepath with _ | fp
      · simp only [projectFirmware, hfp]
        exact ⟨_, rfl⟩
      rcases hrt : f.release_type with _ | rt
      · simp only [projectFirmware, hfp, hrt]
        exact ⟨_, rfl⟩
      rcases hlat : f.latest with _ | lat
      · simp only [projectFirmware, hfp, hrt, hlat]
        exact ⟨_, rfl⟩
      rcases hfmt : f.format with _ | fmt
      · simp only [projectFirmware, hfp, hrt, hlat, hfmt]
        exact ⟨_, rfl⟩
      simp only [projectFirmware, hfp, hrt, hlat, hfmt, hv, if_neg hne, hbad]
      exact ⟨_, rfl⟩
    induction fs with
    | nil => cases hmem
    | cons a rest ih =>
      rcases List.mem_cons.mp hmem with rfl | hmem2
      · obtain ⟨e, he⟩ := herr
        exact ⟨e, by simp [projectAll, he]⟩
      · cases hh : projectFirmware cfg a with
        | error e2 => exact ⟨e2, by simp [projectAll, hh]⟩
        | ok d =>
          obtain ⟨e, he⟩ := ih hmem2
          refine ⟨e, ?_⟩
          rcases haux : add_USB_IDs cfg d with ⟨d2, ws⟩
          simp [projectAll, hh, haux, he]

/-- A record carrying a firmware-version whose first dash part has only two
dot components ("3.6-official"): accepted by the lenient accumulator
parse, fatal at projection. -/
def fwBadVersion : Firmware :=
  { filepath := some "/base/p".data
    release_type := some "stable".data
    latest := some 0
    format := some "apj".data
    firmware_version := some "3.6-official".data }

theorem C5_witness :
    (¬ ∃ a b x y z : Str, splitOnChar '-' "3.6-official".data = [a, b] ∧
        splitOnChar '.' a = [x, y, z]) ∧
    ∃ e, projectAll testCfg [fwBadVersion] = Except.error e :=
  C5_strict_version_parse_fatal testCfg [fwBadVersion] fwBadVersion
    "3.6-official".data (by simp) rfl (by decide) (by decide)

/-- C6: at accumulation time a firmware-version.txt that fails to parse
(wrong number of dash-separated parts; an unreadable file behaves the same
via the other except-branch) produces only a stderr message and a record
whose firmware-version is unset; the record is still created under its
5-tuple key with all other fields populated, and directory processing
continues. -/
theorem C6_lenient_accumulator_version (cfg : Cfg) (vt rt chPath : Str)
    (pd : PlatformDir) (gc sha c fl : Str)
    (hname : isHidden pd.name = false)
    (hgit : pd.gitVersion = some gc)
    (hsha : git_sha_from_git_version gc = some sha)
    (hfv : pd.firmwareVersion = some c)
    (hmal : (splitOnChar '-' (stripStr c)).length ≠ 2)
    (hfiles : pd.files = [fl])
    (hs1 : fl ≠ "git-version.txt".data) (hs2 : fl ≠ "firmware-version.txt".data)
    (hs3 : fl ≠ "files.html".data)
    (hhid : isHidden fl = false) :
    ∃ r : Firmware,
      processPlatformDir cfg vt rt chPath [] pd =
        ([((vt, filePlatformOf (platformFrameOf pd.name vt).1 fl, sha, lastExt fl,
            (platformFrameOf pd.name vt).2), r)],
         [Warning.malformedFwVersion
            (pathJoin (pathJoin chPath pd.name) "firmware-version.txt".data)]) ∧
      r.firmware_version = none ∧ r.git_sha = some sha ∧ r.vehicletype = some vt ∧
      r.platform = some (filePlatformOf (platformFrameOf pd.name vt).1 fl) ∧
      r.frame = some (platformFrameOf pd.name vt).2 ∧
      r.format = some (lastExt fl) ∧
      r.filepath ≠ none ∧ r.release_type ≠ none ∧ r.latest ≠ none ∧
      r.timestamp ≠ none := by
  rcases hpf : platformFrameOf pd.name vt with ⟨pf, fr⟩
  refine ⟨visitOnce cfg Firmware.init rt (filePlatformOf pf fl) vt sha fr (lastExt fl) none
      (pathJoin (pathJoin chPath pd.name) fl), ?_, ?_, ?_, ?_, ?_, ?_, ?_, ?_, ?_, ?_, ?_⟩
  · simp [processPlatformDir, hname, hgit, hsha, readFwVersion, hfv, hmal, hfiles, hpf,
      processFile, hs1, hs2, hs3, hhid, tableGet, tableSet]
  · simp [visitOnce, refreshFields]
  · simp [visitOnce, refreshFields]
  · simp [visitOnce, refreshFields]
  · simp [visitOnce, refreshFields]
  · simp [visitOnce, refreshFields]
  · simp [visitOnce, refreshFields]
  · simp [visitOnce, refreshFields, (applyChannelPolicy_isSome _ _ _).1]
  · simp [visitOnce, refreshFields, (applyChannelPolicy_isSome _ _ _).2.1]
  · simp [visitOnce, refreshFields, (applyChannelPolicy_isSome _ _ _).2.2]
  · simp [visitOnce, refreshFields]

theorem C6_witness :
    ∃ r : Firmware,
      processPlatformDir testCfg "Copter".data "stable".data "/base/Copter/stable".data []
        ⟨"navio-quad".data, some "commit deadbeef".data, some "3.6.0official".data,
         ["ArduCopter.apj".data]⟩ =
        ([(("Copter".data,
            filePlatformOf
              (platformFrameOf "navio-quad".data "Copter".data).1 "ArduCopter.apj".data,
            "deadbeef".data, lastExt "ArduCopter.apj".data,
            (platformFrameOf "navio-quad".data "Copter".data).2), r)],
         [Warning.malformedFwVersion
            (pathJoin (pathJoin "/base/Copter/stable".data "navio-quad".data)
              "firmware-version.txt".data)]) ∧
      r.firmware_version = none ∧ r.git_sha = some "deadbeef".data ∧
      r.vehicletype = some "Copter".data ∧
      r.platform = some (filePlatformOf
        (platformFrameOf "navio-quad".data "Copter".data).1 "ArduCopter.apj".data) ∧
      r.frame = some (platformFrameOf "navio-quad".data "Copter".data).2 ∧
      r.format = some (lastExt "ArduCopter.apj".data) ∧
      r.filepath ≠ none ∧ r.release_type ≠ none ∧ r.latest ≠ none ∧
      r.timestamp ≠ none :=
  C6_lenient_accumulator_version testCfg "Copter".data "stable".data
    "/base/Copter/stable".data
    ⟨"navio-quad".data, some "commit deadbeef".data, some "3.6.0official".data,
     ["ArduCopter.apj".data]⟩
    "commit deadbeef".data "deadbeef".data "3.6.0official".data "ArduCopter.apj".data
    (by decide) rfl (by decide) rfl (by decide) rfl (by decide) (by decide) (by decide)
    (by decide)

/-- C7: platform/frame inference from the platform subdirectory name: a
board-name prefix (PX4, navio or pxf) followed by "-" and a nonempty
frame suffix gives (board, suffix); a board-name prefix with no such
suffix gives (board, vehicle type); any name not starting with a board
prefix gives (whole name, vehicle type). -/
theorem C7_platform_frame_inference (vt : Str) :
    (∀ b f, (b = "PX4".data ∨ b = "navio".data ∨ b = "pxf".data) → f ≠ [] →
       platformFrameOf (b ++ '-' :: f) vt = (b, f)) ∧
    (∀ b rest, (b = "PX4".data ∨ b = "navio".data ∨ b = "pxf".data) →
       (rest.take 1 ≠ ['-'] ∨ rest.length < 2) →
       platformFrameOf (b ++ rest) vt = (b, vt)) ∧
    (∀ name, ¬ "PX4".data <+: name → ¬ "navio".data <+: name → ¬ "pxf".data <+: name →
       platformFrameOf name vt = (name, vt)) := by
  refine ⟨?_, ?_, ?_⟩
  · intro b f hb hf
    have hbp : boardPrefixOf (b ++ '-' :: f) = some b := by
      rcases hb with rfl | rfl | rfl <;> simp [boardPrefixOf, List.isPrefixOf]
    have hlen : 0 < f.length := List.length_pos.mpr hf
    simp only [platformFrameOf, hbp, List.drop_left]
    rw [if_pos ⟨by simp, by simp; omega⟩]
    simp
  · intro b rest hb hc
    have hbp : boardPrefixOf (b ++ rest) = some b := by
      rcases hb with rfl | rfl | rfl <;> simp [boardPrefixOf, List.isPrefixOf]
    simp only [platformFrameOf, hbp, List.drop_left]
    rw [if_neg ?_]
    rcases hc with h | h
    · rintro ⟨h1, _⟩
      exact h h1
    · rintro ⟨_, h2⟩
      omega
  · intro name h1 h2 h3
    have hbp : boardPrefixOf name = none := by
      simp [boardPrefixOf, List.isPrefixOf_iff_prefix, h1, h2, h3]
    simp [platformFrameOf, hbp]

theorem C7_witness :
    platformFrameOf ("navio".data ++ '-' :: "quad".data) "Copter".data =
      ("navio".data, "quad".data) ∧
    platformFrameOf ("PX4".data ++ []) "Plane".data = ("PX4".data, "Plane".data) ∧
    platformFrameOf "CubeBlack".data "Copter".data = ("CubeBlack".data, "Copter".data) :=
  ⟨(C7_platform_frame_inference "Copter".data).1 "navio".data "quad".data
      (Or.inr (Or.inl rfl)) (by decide),
   (C7_platform_frame_inference "Plane".data).2.1 "PX4".data []
      (Or.inl rfl) (Or.inl (by decide)),
   (C7_platform_frame_inference "Copter".data).2.2 "CubeBlack".data
      (by decide) (by decide) (by decide)⟩

/-- C8: apj enrichment sets the board id from the sidecar JSON, builds
bootloader_str from the platform name plus exactly the legacy pair of the
five special-case board ids 50, 9, 11, 13, 88 (everything else gets no
amendment), and sets USBID to the vendor-table entry (or the generic
fallback 0x0483/0x5740 for platforms not in the table) plus exactly the
legacy id of those same board ids; in particular board id 9 with an
unmapped platform yields the generic fallback followed by the FMUv3
legacy id, and a bootloader list with platform-BL and the FMUv2.x legacy
string. -/
theorem C8_chibios_enrichment (cfg : Cfg) (d : JDict) (u platform : Str) (bid : Nat)
    (hurl : dget d "url".data = some (JVal.strv u))
    (hplat : dget d "platform".data = some (JVal.strv platform))
    (hapj : cfg.apj (pathJoin cfg.basedir (u.drop (cfg.baseurl.length + 1))) =
      some (some bid)) :
    dget (add_USB_IDs_ChibiOS cfg d).1 "board_id".data = some (JVal.natv bid) ∧
    dget (add_USB_IDs_ChibiOS cfg d).1 "bootloader_str".data =
      some (JVal.listv ((platform ++ "-BL".data) :: legacyBootloaderStrs bid)) ∧
    dget (add_USB_IDs_ChibiOS cfg d).1 "USBID".data =
      some (JVal.listv
        ((match usbidMapLookup USBID_MAP platform with
          | some ids => ids
          | none => ["0x0483/0x5740".data]) ++ legacyUSBIDs bid)) ∧
    (add_USB_IDs_ChibiOS cfg d).2 = [] := by
  have hhas : dhas d "platform".data = true := by simp [dhas, hplat]
  have e1 : ∀ (dd : JDict) v, dget (dset dd "bootloader_str".data v) "board_id".data =
      dget dd "board_id".data := fun dd v => dget_dset_ne dd _ _ v (by decide)
  have e2 : ∀ (dd : JDict) v, dget (dset dd "USBID".data v) "board_id".data =
      dget dd "board_id".data := fun dd v => dget_dset_ne dd _ _ v (by decide)
  have e3 : ∀ (dd : JDict) v, dget (dset dd "USBID".data v) "bootloader_str".data =
      dget dd "bootloader_str".data := fun dd v => dget_dset_ne dd _ _ v (by decide)
  simp only [add_USB_IDs_ChibiOS, hurl, hapj, hhas, hplat, if_true]
  by_cases b1 : bid = 50 <;> by_cases b2 : bid = 9 <;> by_cases b3 : bid = 11 <;>
    by_cases b4 : bid = 13 <;> by_cases b5 : bid = 88 <;>
    first
      | (exfalso; omega)
      | simp [legacyBootloaderStrs, legacyUSBIDs, b1, b2, b3, b4, b5,
          dget_dset_same, e1, e2, e3]

/-- A projected apj entry for platform "navio" whose sidecar (under
`testCfg`) carries board id 9. -/
def apjDict : JDict :=
  [("platform".data, JVal.strv "navio".data),
   ("url".data, JVal.strv "http://fw/Copter/stable/navio-quad/ArduCopter.apj".data),
   ("format".data, JVal.strv "apj".data)]

theorem C8_witness :
    dget (add_USB_IDs_ChibiOS testCfg apjDict).1 "board_id".data =
      some (JVal.natv 9) ∧
    dget (add_USB_IDs_ChibiOS testCfg apjDict).1 "bootloader_str".data =
      some (JVal.listv ["navio-BL".data, "PX4 BL FMU v2.x".data]) ∧
    dget (add_USB_IDs_ChibiOS testCfg apjDict).1 "USBID".data =
      some (JVal.listv ["0x0483/0x5740".data, "0x26AC/0x0011".data]) ∧
    (add_USB_IDs_ChibiOS testCfg apjDict).2 = [] :=
  C8_chibios_enrichment testCfg apjDict
    "http://fw/Copter/stable/navio-quad/ArduCopter.apj".data "navio".data 9
    (by decide) (by decide) (by decide)

/-- First dictionary of an ok projection result. -/
def headDict : Except Str (List JDict × List Warning) → JDict
  | Except.ok (d :: _, _) => d
  | _ => []

/-- Number of projected entries of an ok projection result. -/
def okEntryCount : Except Str (List JDict × List Warning) → Option Nat
  | Except.ok (ds, _) => some ds.length
  | _ => none

/-- A `PX4` platform directory holding `ArduCopter-v1.px4`. -/
def px4Pd : PlatformDir :=
  ⟨"PX4".data, some "commit deadbeef".data, some "3.6.0-official".data,
   ["ArduCopter-v1.px4".data]⟩

/-- C9: the px4 USB-id table is keyed by the last dash-delimited token of
the URL; an unrecognized suffix changes nothing (and raises nothing); the
"v1.px4" suffix yields USBID 0x26AC/0x0010, board id 5 and the FMU v1.x
bootloader string; and `ArduCopter-v1.px4` under a `PX4` platform
directory accumulates under platform key "PX4-v1" and projects to exactly
one manifest entry carrying those values. -/
theorem C9_px4_usb_table :
    (∀ d u, dget d "url".data = some (JVal.strv u) →
       (splitOnChar '-' u).getLastD [] ∉
         ["v1.px4".data, "v2.px4".data, "v3.px4".data, "v4.px4".data, "v4pro.px4".data] →
       add_USB_IDs_PX4 d = d) ∧
    (∀ d u, dget d "url".data = some (JVal.strv u) →
       (splitOnChar '-' u).getLastD [] = "v1.px4".data →
       dget (add_USB_IDs_PX4 d) "USBID".data = some (JVal.listv ["0x26AC/0x0010".data]) ∧
       dget (add_USB_IDs_PX4 d) "board_id".data = some (JVal.natv 5) ∧
       dget (add_USB_IDs_PX4 d) "bootloader_str".data =
         some (JVal.listv ["PX4 BL FMU v1.x".data])) ∧
    filePlatformOf "PX4".data "ArduCopter-v1.px4".data = "PX4-v1".data ∧
    okEntryCount (projectAll testCfg (xfirmwares_to_firmwares
      (add_firmware_data_from_dir testCfg "Copter".data "stable".data
        "/base/Copter/stable".data [px4Pd] []).1)) = some 1 ∧
    (tableGet (add_firmware_data_from_dir testCfg "Copter".data "stable".data
        "/base/Copter/stable".data [px4Pd] []).1
      ("Copter".data, "PX4-v1".data, "deadbeef".data, "px4".data, "Copter".data)).isSome ∧
    dget (headDict (projectAll testCfg (xfirmwares_to_firmwares
      (add_firmware_data_from_dir testCfg "Copter".data "stable".data
        "/base/Copter/stable".data [px4Pd] []).1))) "platform".data =
      some (JVal.strv "PX4-v1".data) ∧
    dget (headDict (projectAll testCfg (xfirmwares_to_firmwares
      (add_firmware_data_from_dir testCfg "Copter".data "stable".data
        "/base/Copter/stable".data [px4Pd] []).1))) "USBID".data =
      some (JVal.listv ["0x26AC/0x0010".data]) ∧
    dget (headDict (projectAll testCfg (xfirmwares_to_firmwares
      (add_firmware_data_from_dir testCfg "Copter".data "stable".data
        "/base/Copter/stable".data [px4Pd] []).1))) "board_id".data =
      some (JVal.natv 5) ∧
    dget (headDict (projectAll testCfg (xfirmwares_to_firmwares
      (add_firmware_data_from_dir testCfg "Copter".data "stable".data
        "/base/Copter/stable".data [px4Pd] []).1))) "bootloader_str".data =
      some (JVal.listv ["PX4 BL FMU v1.x".data]) := by
  refine ⟨?_, ?_, by decide, by decide, by decide, by decide, by decide, by decide,
    by decide⟩
  · intro d u hurl hmem
    simp only [List.mem_cons, List.mem_singleton, not_or] at hmem
    obtain ⟨h1, h2, h3, h4, h5, -⟩ := hmem
    simp only [add_USB_IDs_PX4, hurl]
    rw [if_neg h1, if_neg (fun hc => hc.elim h2 h3), if_neg h4, if_neg h5]
  · intro d u hurl hs
    simp only [add_USB_IDs_PX4, hurl, hs, if_true]
    refine ⟨?_, ?_, ?_⟩
    · rw [dget_dset_ne _ _ _ _ (by decide), dget_dset_ne _ _ _ _ (by decide),
        dget_dset_same]
    · rw [dget_dset_ne _ _ _ _ (by decide), dget_dset_same]
    · rw [dget_dset_same]

/-- An entry whose URL ends in the recognized suffix v1.px4. -/
def px4V1Dict : JDict :=
  [("url".data, JVal.strv "http://fw/Copter/stable/PX4/ArduCopter-v1.px4".data)]

/-- An entry whose URL ends in a suffix missing from the px4 table. -/
def px4OtherDict : JDict :=
  [("url".data, JVal.strv "http://fw/Copter/stable/PX4/ArduCopter-v9.px4".data)]

theorem C9_witness :
    add_USB_IDs_PX4 px4OtherDict = px4OtherDict ∧
    (dget (add_USB_IDs_PX4 px4V1Dict) "USBID".data =
       some (JVal.listv ["0x26AC/0x0010".data]) ∧
     dget (add_USB_IDs_PX4 px4V1Dict) "board_id".data = some (JVal.natv 5) ∧
     dget (add_USB_IDs_PX4 px4V1Dict) "bootloader_str".data =
       some (JVal.listv ["PX4 BL FMU v1.x".data])) :=
  ⟨C9_px4_usb_table.1 px4OtherDict
     "http://fw/Copter/stable/PX4/ArduCopter-v9.px4".data rfl (by decide),
   C9_px4_usb_table.2.1 px4V1Dict
     "http://fw/Copter/stable/PX4/ArduCopter-v1.px4".data rfl (by decide)⟩

/-- Recognizer for the "no platform" stderr message of
`add_USB_IDs_ChibiOS`. -/
def isNoPlatform : Warning → Bool
  | Warning.noPlatform _ => true
  | _ => false

/-- C10: every dictionary the projector hands to USB enrichment carries a
"platform" key (it is written unconditionally when the dictionary is
built), so the apj-enrichment branch that reports "no platform" is
unreachable: enrichment of a projected entry never emits that warning. -/
theorem C10_no_platform_unreachable (cfg : Cfg) (f : Firmware) (d : JDict)
    (h : projectFirmware cfg f = Except.ok d) :
    dhas d "platform".data = true ∧
    (add_USB_IDs cfg d).2.any isNoPlatform = false := by
  rcases hfp : f.filepath with _ | fp
  · simp [projectFirmware, hfp] at h
  rcases hrt : f.release_type with _ | rt
  · simp [projectFirmware, hfp, hrt] at h
  rcases hlat : f.latest with _ | lat
  · simp [projectFirmware, hfp, hrt, hlat] at h
  rcases hfmt : f.format with _ | fmt
  · simp [projectFirmware, hfp, hrt, hlat, hfmt] at h
  have main : ∀ tail : JDict,
      dhas ([("mav-autopilot".data, JVal.strv "ARDUPILOTMEGA".data),
             ("platform".data, optStrVal f.platform),
             ("git-sha".data, optStrVal f.git_sha),
             ("url".data, JVal.strv (urlify cfg fp)),
             ("mav-type".data, optStrVal (frame_map f.frame)),
             ("mav-firmware-version-type".data, JVal.strv (releasetype_map rt)),
             ("latest".data, JVal.natv lat),
             ("format".data, JVal.strv fmt)] ++ tail) "platform".data = true ∧
      (add_USB_IDs cfg
          ([("mav-autopilot".data, JVal.strv "ARDUPILOTMEGA".data),
            ("platform".data, optStrVal f.platform),
            ("git-sha".data, optStrVal f.git_sha),
            ("url".data, JVal.strv (urlify cfg fp)),
            ("mav-type".data, optStrVal (frame_map f.frame)),
            ("mav-firmware-version-type".data, JVal.strv (releasetype_map rt)),
            ("latest".data, JVal.natv lat),
            ("format".data, JVal.strv fmt)] ++ tail)).2.any isNoPlatform = false := by
    intro tail
    constructor
    · simp [dhas, dget]
    · by_cases h1 : fmt = "px4".data
      · simp [add_USB_IDs, dget, h1]
      · by_cases h2 : fmt = "apj".data
        · rcases happ : cfg.apj (pathJoin cfg.basedir
              ((urlify cfg fp).drop (cfg.baseurl.length + 1))) with _ | oj
          · simp [add_USB_IDs, add_USB_IDs_ChibiOS, dget, dhas, h1, h2, happ,
              isNoPlatform]
          · rcases oj with _ | bid
            · simp [add_USB_IDs, add_USB_IDs_ChibiOS, dget, dhas, h1, h2, happ,
                isNoPlatform]
            · rcases hpv : f.platform with _ | pv <;>
                simp [add_USB_IDs, add_USB_IDs_ChibiOS, dget, dhas, h1, h2, happ,
                  hpv, optStrVal]
        · simp [add_USB_IDs, dget, h1, h2]
  rcases hv : f.firmware_version with _ | v
  · simp only [projectFirmware, hfp, hrt, hlat, hfmt, hv] at h
    simp only [Except.ok.injEq] at h
    subst h
    have := main []
    simpa using this
  · by_cases hve : v = []
    · simp only [projectFirmware, hfp, hrt, hlat, hfmt, hv, hve, if_true] at h
      simp only [Except.ok.injEq] at h
      subst h
      have := main []
      simpa using this
    · rcases hp : parse_fw_version v with _ | quad
      · simp [projectFirmware, hfp, hrt, hlat, hfmt, hv, if_neg hve, hp] at h
      · obtain ⟨maj, mi, pa, orig⟩ := quad
        simp only [projectFirmware, hfp, hrt, hlat, hfmt, hv, if_neg hve, hp] at h
        simp only [Except.ok.injEq] at h
        subst h
        exact main _

/-- An apj record with every field populated, as the accumulator leaves
it. -/
def fwFull : Firmware :=
  { platform := some "navio".data
    vehicletype := some "Copter".data
    filepath := some "/base/Copter/stable/navio-quad/ArduCopter.apj".data
    git_sha := some "deadbeef".data
    frame := some "quad".data
    release_type := some "stable".data
    firmware_version := some "3.6.0-official".data
    latest := some 0
    timestamp := some 7
    format := some "apj".data }

/-- The dictionary `fwFull` projects to under `testCfg`. -/
def fwFullDict : JDict :=
  ((projectFirmware testCfg fwFull).toOption).getD []

theorem C10_witness :
    dhas fwFullDict "platform".data = true ∧
    (add_USB_IDs testCfg fwFullDict).2.any isNoPlatform = false :=
  C10_no_platform_unreachable testCfg fwFull fwFullDict (by rfl)
